import Mathlib

/-!
Shallow embedding of the viewing-state library: two immutable four-variant
tagged unions, `LoadableViewState` and `EditableViewState`, with their
predicates, accessors, per-variant hooks, fold and string rendering.

Modelling conventions:
- The TypeScript wrapper classes hold exactly one field, the inner tagged
  union; the embedding identifies each wrapper with its union and gives the
  four static factories as definitions on it.
- `ε` stands for the runtime `Error` type and `V` for the generic value type.
- JavaScript property reads that can yield `undefined` (reading `.error`
  through a cast on a variant that has no such field) are modelled with
  `Option ε`: `none` is the `undefined` value, `some e` a present error.
  The public `failure` factory always stores a present error.
- Side-effecting callbacks are modelled as explicit state transformers over
  an arbitrary state type `σ` (a `perform` action is `args → σ → σ`, a fold
  handler is `args → σ → R × σ`), so that the number of invocations and the
  arguments of each invocation are observable in the result.
- The `throw` statements of the source become `Except` results: the thrown
  JavaScript value is the `.error` component.
-/

/-- Inner tagged union of the loadable state, mirroring the four source
classes `InitialType`, `LoadingType`, `SuccessType`, `FailureType`.
The failure payload is `Option ε` because the running code can reach the
failure constructor with an `undefined` error (see `LoadableViewState.map`
on a success holding a null value); the public factory stores `some e`. -/
inductive LoadableViewState (ε V : Type) where
  | InitialType : LoadableViewState ε V
  | LoadingType : LoadableViewState ε V
  | SuccessType (value : V) : LoadableViewState ε V
  | FailureType (error : Option ε) : LoadableViewState ε V
  deriving DecidableEq

namespace LoadableViewState

/-- Static factory: `LoadableViewState.initial()`. -/
def initial : LoadableViewState ε V := InitialType

/-- Static factory: `LoadableViewState.loading()`. -/
def loading : LoadableViewState ε V := LoadingType

/-- Static factory: `LoadableViewState.success(value)`. -/
def success (value : V) : LoadableViewState ε V := SuccessType value

/-- Static factory: `LoadableViewState.failure(error)`; stores the given
error, always present. -/
def failure (error : ε) : LoadableViewState ε V := FailureType (some error)

/-- Predicate `isInitial`: `this.loadableViewState instanceof InitialType`. -/
def isInitial : LoadableViewState ε V → Bool
  | InitialType => true
  | _ => false

/-- Predicate `isLoading`: `this.loadableViewState instanceof LoadingType`. -/
def isLoading : LoadableViewState ε V → Bool
  | LoadingType => true
  | _ => false

/-- Predicate `isSuccess`: `this.loadableViewState instanceof SuccessType`. -/
def isSuccess : LoadableViewState ε V → Bool
  | SuccessType _ => true
  | _ => false

/-- Predicate `isFailure`: `this.loadableViewState instanceof FailureType`. -/
def isFailure : LoadableViewState ε V → Bool
  | FailureType _ => true
  | _ => false

/-- The JavaScript property read `(this.loadableViewState as FailureType).error`:
the stored error on a failure, and `undefined` (here `none`) on every other
variant, where the property does not exist. -/
def errorProp : LoadableViewState ε V → Option ε
  | FailureType e => e
  | _ => none

/-- Method `getOrNull()`: the value when the state is a success, else null. -/
def getOrNull : LoadableViewState ε V → Option V
  | SuccessType v => some v
  | _ => none

/-- Method `getOrDefault(defaultValue)`: the value when the state is a
success, else the given default. -/
def getOrDefault (defaultValue : V) : LoadableViewState ε V → V
  | SuccessType v => v
  | _ => defaultValue

/-- Method `getOrThrow()`: returns the value on success; otherwise executes
`throw (this.loadableViewState as FailureType).error`, i.e. throws the
`.error` property read, which is the stored error on a failure and the
`undefined` value (`none`) on initial and loading. -/
def getOrThrow : LoadableViewState ε V → Except (Option ε) V
  | SuccessType v => Except.ok v
  | s => Except.error s.errorProp

/-- Method `errorOrNull()`: the error when the state is a failure, else null
(`none` also covers the `undefined` stored by an internally built failure). -/
def errorOrNull : LoadableViewState ε V → Option ε
  | FailureType e => e
  | _ => none

/-- Hook `onInitial(perform)`: runs the action when the state is initial,
then returns the receiver. -/
def onInitial (perform : σ → σ) : LoadableViewState ε V → σ → LoadableViewState ε V × σ
  | s@InitialType, st => (s, perform st)
  | s, st => (s, st)

/-- Hook `onLoading(perform)`: runs the action when the state is loading,
then returns the receiver. -/
def onLoading (perform : σ → σ) : LoadableViewState ε V → σ → LoadableViewState ε V × σ
  | s@LoadingType, st => (s, perform st)
  | s, st => (s, st)

/-- Hook `onSuccess(perform)`: runs the action on the stored value when the
state is a success, then returns the receiver. -/
def onSuccess (perform : V → σ → σ) : LoadableViewState ε V → σ → LoadableViewState ε V × σ
  | s@(SuccessType v), st => (s, perform v st)
  | s, st => (s, st)

/-- Hook `onFailure(perform)`: runs the action on the `.error` property when
the state is a failure, then returns the receiver. -/
def onFailure (perform : Option ε → σ → σ) : LoadableViewState ε V → σ → LoadableViewState ε V × σ
  | s@(FailureType e), st => (s, perform e st)
  | s, st => (s, st)

/-- The three non-success return paths at the end of `map`: initial stays
initial, loading stays loading, and the final line calls the failure factory
on the `.error` property read through a cast, which is `undefined` when the
receiver is not actually a failure. -/
def mapOtherwise (s : LoadableViewState ε V) (st : σ) : LoadableViewState ε W × σ :=
  if s.isInitial then (InitialType, st)
  else if s.isLoading then (LoadingType, st)
  else (FailureType s.errorProp, st)

/-- Method `map(transform)`. The source reads `const value = this.getOrNull()`
and tests `value != null`; `n` models that JavaScript null test on the
caller-chosen value type (`n v = true` when `v` is the null value, constantly
`false` for a non-nullable type). Only when the test passes is the transform
applied and wrapped in a success; otherwise the three fall-through returns of
`mapOtherwise` run. -/
def map (n : V → Bool) (transform : V → σ → W × σ) (s : LoadableViewState ε V) (st : σ) :
    LoadableViewState ε W × σ :=
  match s.getOrNull with
  | some value =>
      if n value then s.mapOtherwise st
      else
        let r := transform value st
        (success r.1, r.2)
  | none => s.mapOtherwise st

/-- Positional `fold(onSuccess, onFailure, onInitial, onLoading)`: the source
checks success, then initial, then loading, and the final line calls the
failure handler on the `.error` property. -/
def fold (onS : V → σ → R × σ) (onF : Option ε → σ → R × σ) (onI : σ → R × σ)
    (onL : σ → R × σ) : LoadableViewState ε V → σ → R × σ
  | SuccessType v, st => onS v st
  | InitialType, st => onI st
  | LoadingType, st => onL st
  | s, st => onF s.errorProp st

end LoadableViewState

/-- The named-handler-object argument of the object overload of
`LoadableViewState.fold`. -/
structure LoadableFoldHandlers (ε V R σ : Type) where
  onSuccess : V → σ → R × σ
  onFailure : Option ε → σ → R × σ
  onInitial : σ → R × σ
  onLoading : σ → R × σ

namespace LoadableViewState

/-- Object overload of `fold`: destructures the handler object and forwards
to the positional form, as in the source. -/
def foldObj (handlers : LoadableFoldHandlers ε V R σ) (s : LoadableViewState ε V) (st : σ) :
    R × σ :=
  s.fold handlers.onSuccess handlers.onFailure handlers.onInitial handlers.onLoading st

/-- Method `toString()`: checks initial, then success, then loading, with the
failure template as the final return. `strV` and `strE` stand for the
JavaScript `String(...)` conversion of values and errors; `String(undefined)`
is the literal text `undefined`. -/
def toString (strV : V → String) (strE : ε → String) : LoadableViewState ε V → String
  | InitialType => "Initial"
  | SuccessType v => "Success: " ++ strV v
  | LoadingType => "Loading"
  | FailureType e => "Failure: " ++ (match e with | some x => strE x | none => "undefined")

end LoadableViewState

/-- Inner tagged union of the editable state, mirroring the four source
classes `Initial(value)`, `Loading(current, target)`, `Success(old,
succeeded)` and `Failure(current, failed, error)`. -/
inductive EditableViewState (ε V : Type) where
  | Initial (value : V) : EditableViewState ε V
  | Loading (current target : V) : EditableViewState ε V
  | Success (old succeeded : V) : EditableViewState ε V
  | Failure (current failed : V) (error : ε) : EditableViewState ε V
  deriving DecidableEq

namespace EditableViewState

/-- Static factory: `EditableViewState.initial(value)`. -/
def initial (value : V) : EditableViewState ε V := Initial value

/-- Static factory: `EditableViewState.loading(current, target)`. -/
def loading (current target : V) : EditableViewState ε V := Loading current target

/-- Static factory: `EditableViewState.success(old, succeeded)`. -/
def success (old succeeded : V) : EditableViewState ε V := Success old succeeded

/-- Static factory: `EditableViewState.failure(current, failed, error)`. -/
def failure (current failed : V) (error : ε) : EditableViewState ε V :=
  Failure current failed error

/-- Predicate `isInitial`: `this.editableViewState instanceof Initial`. -/
def isInitial : EditableViewState ε V → Bool
  | Initial _ => true
  | _ => false

/-- Predicate `isLoading`: `this.editableViewState instanceof Loading`. -/
def isLoading : EditableViewState ε V → Bool
  | Loading _ _ => true
  | _ => false

/-- Predicate `isSuccess`: `this.editableViewState instanceof Success`. -/
def isSuccess : EditableViewState ε V → Bool
  | Success _ _ => true
  | _ => false

/-- Predicate `isFailure`: `this.editableViewState instanceof Failure`. -/
def isFailure : EditableViewState ε V → Bool
  | Failure _ _ _ => true
  | _ => false

/-- The private static type guard for Initial, giving access to its payload
when the instanceof test passes. -/
def asInitial : EditableViewState ε V → Option V
  | Initial v => some v
  | _ => none

/-- The private static type guard for Loading, giving access to its payload
when the instanceof test passes. -/
def asLoading : EditableViewState ε V → Option (V × V)
  | Loading c t => some (c, t)
  | _ => none

/-- The private static type guard for Success, giving access to its payload
when the instanceof test passes. -/
def asSuccess : EditableViewState ε V → Option (V × V)
  | Success o su => some (o, su)
  | _ => none

/-- The private static type guard for Failure, giving access to its payload
when the instanceof test passes. -/
def asFailure : EditableViewState ε V → Option (V × V × ε)
  | Failure c f e => some (c, f, e)
  | _ => none

/-- Method `getRelevant()`: guard chain initial, loading, success, failure,
with the final statement `throw new Error` on the unreachable-state text. -/
def getRelevant (s : EditableViewState ε V) : Except String V :=
  match s.asInitial with
  | some value => Except.ok value
  | none =>
  match s.asLoading with
  | some (current, _) => Except.ok current
  | none =>
  match s.asSuccess with
  | some (_, succeeded) => Except.ok succeeded
  | none =>
  match s.asFailure with
  | some (current, _, _) => Except.ok current
  | none => Except.error "unreachable state"

/-- Method `errorOrNull()`: the error when the state is a failure, else null. -/
def errorOrNull : EditableViewState ε V → Option ε
  | Failure _ _ e => some e
  | _ => none

/-- Hook `onInitial(perform)`: runs the action on the value when the state is
initial, then returns the receiver. -/
def onInitial (perform : V → σ → σ) : EditableViewState ε V → σ → EditableViewState ε V × σ
  | s@(Initial v), st => (s, perform v st)
  | s, st => (s, st)

/-- Hook `onLoading(perform)`: runs the action on current and target when the
state is loading, then returns the receiver. -/
def onLoading (perform : V → V → σ → σ) : EditableViewState ε V → σ → EditableViewState ε V × σ
  | s@(Loading c t), st => (s, perform c t st)
  | s, st => (s, st)

/-- Hook `onSuccess(perform)`: runs the action on old and succeeded when the
state is a success, then returns the receiver. -/
def onSuccess (perform : V → V → σ → σ) : EditableViewState ε V → σ → EditableViewState ε V × σ
  | s@(Success o su), st => (s, perform o su st)
  | s, st => (s, st)

/-- Hook `onFailure(perform)`: runs the action on current, failed and the
error when the state is a failure, then returns the receiver. -/
def onFailure (perform : V → V → ε → σ → σ) :
    EditableViewState ε V → σ → EditableViewState ε V × σ
  | s@(Failure c f e), st => (s, perform c f e st)
  | s, st => (s, st)

/-- Positional `fold(onSuccess, onFailure, onInitial, onLoading)`: guard chain
success, initial, loading, failure, with the final statement `throw new Error`
on the unreachable-state text. -/
def fold (onS : V → V → σ → R × σ) (onF : V → V → ε → σ → R × σ) (onI : V → σ → R × σ)
    (onL : V → V → σ → R × σ) (s : EditableViewState ε V) (st : σ) : Except String (R × σ) :=
  match s.asSuccess with
  | some (o, su) => Except.ok (onS o su st)
  | none =>
  match s.asInitial with
  | some value => Except.ok (onI value st)
  | none =>
  match s.asLoading with
  | some (c, t) => Except.ok (onL c t st)
  | none =>
  match s.asFailure with
  | some (c, f, e) => Except.ok (onF c f e st)
  | none => Except.error "unreachable state"

end EditableViewState

/-- The named-handler-object argument of the object overload of
`EditableViewState.fold`. -/
structure EditableFoldHandlers (ε V R σ : Type) where
  onSuccess : V → V → σ → R × σ
  onFailure : V → V → ε → σ → R × σ
  onInitial : V → σ → R × σ
  onLoading : V → V → σ → R × σ

namespace EditableViewState

/-- Object overload of `fold`: destructures the handler object and forwards
to the positional form, as in the source. -/
def foldObj (handlers : EditableFoldHandlers ε V R σ) (s : EditableViewState ε V) (st : σ) :
    Except String (R × σ) :=
  fold handlers.onSuccess handlers.onFailure handlers.onInitial handlers.onLoading s st

/-- Method `toString()`: guard chain initial, loading, success, failure, with
the final statement `throw new Error` on the unreachable-state text. The
failure template shows only current and failed; the error is omitted. `strV`
stands for the template-literal string conversion of values. -/
def toString (strV : V → String) (s : EditableViewState ε V) : Except String String :=
  match s.asInitial with
  | some value => Except.ok ("Initial: " ++ strV value)
  | none =>
  match s.asLoading with
  | some (c, t) => Except.ok ("Loading: " ++ strV c ++ " -> " ++ strV t)
  | none =>
  match s.asSuccess with
  | some (o, su) => Except.ok ("Success: " ++ strV o ++ " -> " ++ strV su)
  | none =>
  match s.asFailure with
  | some (c, f, _) => Except.ok ("Failure: " ++ strV c ++ " -> " ++ strV f)
  | none => Except.error "unreachable state"

end EditableViewState

/-- Claim C1, amended: getOrThrow on success(v) returns v and on failure(e)
throws exactly the stored error e; on initial() and loading() it throws the
undefined value obtained by reading the absent stored-error property (modelled
as none), not a library-constructed invalid-state error. -/
theorem claim_C1 {ε V : Type} :
    (∀ v : V, (LoadableViewState.success v : LoadableViewState ε V).getOrThrow = Except.ok v)
    ∧ (∀ e : ε,
        (LoadableViewState.failure e : LoadableViewState ε V).getOrThrow = Except.error (some e))
    ∧ (LoadableViewState.initial : LoadableViewState ε V).getOrThrow = Except.error none
    ∧ (LoadableViewState.loading : LoadableViewState ε V).getOrThrow = Except.error none :=
  ⟨fun _ => rfl, fun _ => rfl, rfl, rfl⟩

/-- Claim C1, counterexample: getOrThrow on initial() and on loading() throws
exactly the content of the absent error property, the undefined value
(Except.error none), so the raised value is the absent stored error itself and
not a distinct, library-constructed invalid-state error. -/
theorem claim_C1_counterexample :
    (LoadableViewState.initial : LoadableViewState Nat Nat).getOrThrow = Except.error none
    ∧ (LoadableViewState.loading : LoadableViewState Nat Nat).getOrThrow = Except.error none :=
  ⟨rfl, rfl⟩

/-- Claim C2, evaluation at the failing input: with a caller-chosen nullable
value type, success(null).map(transform) does not return
success(transform(null)) as the claim and the method documentation state;
whatever the transform, it is never invoked and the result is a failure state
carrying the undefined error. -/
theorem claim_C2_code_eval :
    (LoadableViewState.success (none : Option Nat) : LoadableViewState Nat (Option Nat)).map
        Option.isNone (fun v st => (v, st)) 0
      = (LoadableViewState.FailureType none, 0)
    ∧ ((LoadableViewState.success (none : Option Nat) : LoadableViewState Nat (Option Nat)).map
        Option.isNone (fun v st => (v, st)) 0).1
      ≠ LoadableViewState.success none :=
  ⟨rfl, by decide⟩

/-- Claim C3: on every factory-built instance of either type and for every
handler assignment and effect state, fold applies exactly the handler of the
active variant, once, to exactly the payload of that variant and the incoming
effect state, and returns the result of that application; the result does not
depend on the other three handlers, so they are never invoked. -/
theorem claim_C3 {ε V R σ : Type} :
    (∀ (hS : V → σ → R × σ) (hF : Option ε → σ → R × σ) (hI hL : σ → R × σ)
        (v : V) (e : ε) (st : σ),
      LoadableViewState.fold hS hF hI hL (LoadableViewState.success v) st = hS v st
      ∧ LoadableViewState.fold hS hF hI hL (LoadableViewState.failure e) st = hF (some e) st
      ∧ LoadableViewState.fold hS hF hI hL LoadableViewState.initial st = hI st
      ∧ LoadableViewState.fold hS hF hI hL LoadableViewState.loading st = hL st)
    ∧ (∀ (hS : V → V → σ → R × σ) (hF : V → V → ε → σ → R × σ) (hI : V → σ → R × σ)
        (hL : V → V → σ → R × σ) (a b : V) (e : ε) (st : σ),
      EditableViewState.fold hS hF hI hL (EditableViewState.success a b) st
        = Except.ok (hS a b st)
      ∧ EditableViewState.fold hS hF hI hL (EditableViewState.failure a b e) st
        = Except.ok (hF a b e st)
      ∧ EditableViewState.fold hS hF hI hL (EditableViewState.initial a) st
        = Except.ok (hI a st)
      ∧ EditableViewState.fold hS hF hI hL (EditableViewState.loading a b) st
        = Except.ok (hL a b st)) := by
  refine ⟨?_, ?_⟩ <;> intros <;> exact ⟨rfl, rfl, rfl, rfl⟩

/-- Claim C4: for every payload, each of the eight factories makes true
exactly the predicate of the variant it constructs and makes the other three
predicates false. -/
theorem claim_C4 {ε V : Type} :
    ((LoadableViewState.initial : LoadableViewState ε V).isInitial = true
      ∧ (LoadableViewState.initial : LoadableViewState ε V).isLoading = false
      ∧ (LoadableViewState.initial : LoadableViewState ε V).isSuccess = false
      ∧ (LoadableViewState.initial : LoadableViewState ε V).isFailure = false)
    ∧ ((LoadableViewState.loading : LoadableViewState ε V).isInitial = false
      ∧ (LoadableViewState.loading : LoadableViewState ε V).isLoading = true
      ∧ (LoadableViewState.loading : LoadableViewState ε V).isSuccess = false
      ∧ (LoadableViewState.loading : LoadableViewState ε V).isFailure = false)
    ∧ (∀ v : V, (LoadableViewState.success v : LoadableViewState ε V).isInitial = false
      ∧ (LoadableViewState.success v : LoadableViewState ε V).isLoading = false
      ∧ (LoadableViewState.success v : LoadableViewState ε V).isSuccess = true
      ∧ (LoadableViewState.success v : LoadableViewState ε V).isFailure = false)
    ∧ (∀ e : ε, (LoadableViewState.failure e : LoadableViewState ε V).isInitial = false
      ∧ (LoadableViewState.failure e : LoadableViewState ε V).isLoading = false
      ∧ (LoadableViewState.failure e : LoadableViewState ε V).isSuccess = false
      ∧ (LoadableViewState.failure e : LoadableViewState ε V).isFailure = true)
    ∧ (∀ a : V, (EditableViewState.initial a : EditableViewState ε V).isInitial = true
      ∧ (EditableViewState.initial a : EditableViewState ε V).isLoading = false
      ∧ (EditableViewState.initial a : EditableViewState ε V).isSuccess = false
      ∧ (EditableViewState.initial a : EditableViewState ε V).isFailure = false)
    ∧ (∀ a b : V, (EditableViewState.loading a b : EditableViewState ε V).isInitial = false
      ∧ (EditableViewState.loading a b : EditableViewState ε V).isLoading = true
      ∧ (EditableViewState.loading a b : EditableViewState ε V).isSuccess = false
      ∧ (EditableViewState.loading a b : EditableViewState ε V).isFailure = false)
    ∧ (∀ a b : V, (EditableViewState.success a b : EditableViewState ε V).isInitial = false
      ∧ (EditableViewState.success a b : EditableViewState ε V).isLoading = false
      ∧ (EditableViewState.success a b : EditableViewState ε V).isSuccess = true
      ∧ (EditableViewState.success a b : EditableViewState ε V).isFailure = false)
    ∧ (∀ (a b : V) (e : ε),
      (EditableViewState.failure a b e : EditableViewState ε V).isInitial = false
      ∧ (EditableViewState.failure a b e : EditableViewState ε V).isLoading = false
      ∧ (EditableViewState.failure a b e : EditableViewState ε V).isSuccess = false
      ∧ (EditableViewState.failure a b e : EditableViewState ε V).isFailure = true) := by
  refine ⟨?_, ?_, ?_, ?_, ?_, ?_, ?_, ?_⟩ <;> intros <;> exact ⟨rfl, rfl, rfl, rfl⟩

/-- Claim C5: for every instance, every hook and every supplied action, the
action is applied exactly once, to the documented payload of the active
variant and the incoming effect state, precisely when the instance is of the
matching variant; on the other three variants the effect state is returned
untouched and the action is never consulted; and the first component of the
result is always the original, unchanged receiver. -/
theorem claim_C5 {ε V σ : Type} :
    (∀ (p : σ → σ) (v : V) (e : ε) (st : σ),
      LoadableViewState.onInitial p LoadableViewState.initial st
        = ((LoadableViewState.initial : LoadableViewState ε V), p st)
      ∧ LoadableViewState.onInitial p (LoadableViewState.loading : LoadableViewState ε V) st
        = (LoadableViewState.loading, st)
      ∧ LoadableViewState.onInitial p (LoadableViewState.success v : LoadableViewState ε V) st
        = (LoadableViewState.success v, st)
      ∧ LoadableViewState.onInitial p (LoadableViewState.failure e : LoadableViewState ε V) st
        = (LoadableViewState.failure e, st))
    ∧ (∀ (p : σ → σ) (v : V) (e : ε) (st : σ),
      LoadableViewState.onLoading p (LoadableViewState.loading : LoadableViewState ε V) st
        = (LoadableViewState.loading, p st)
      ∧ LoadableViewState.onLoading p (LoadableViewState.initial : LoadableViewState ε V) st
        = (LoadableViewState.initial, st)
      ∧ LoadableViewState.onLoading p (LoadableViewState.success v : LoadableViewState ε V) st
        = (LoadableViewState.success v, st)
      ∧ LoadableViewState.onLoading p (LoadableViewState.failure e : LoadableViewState ε V) st
        = (LoadableViewState.failure e, st))
    ∧ (∀ (p : V → σ → σ) (v : V) (e : ε) (st : σ),
      LoadableViewState.onSuccess p (LoadableViewState.success v : LoadableViewState ε V) st
        = (LoadableViewState.success v, p v st)
      ∧ LoadableViewState.onSuccess p (LoadableViewState.initial : LoadableViewState ε V) st
        = (LoadableViewState.initial, st)
      ∧ LoadableViewState.onSuccess p (LoadableViewState.loading : LoadableViewState ε V) st
        = (LoadableViewState.loading, st)
      ∧ LoadableViewState.onSuccess p (LoadableViewState.failure e : LoadableViewState ε V) st
        = (LoadableViewState.failure e, st))
    ∧ (∀ (p : Option ε → σ → σ) (v : V) (e : ε) (st : σ),
      LoadableViewState.onFailure p (LoadableViewState.failure e : LoadableViewState ε V) st
        = (LoadableViewState.failure e, p (some e) st)
      ∧ LoadableViewState.onFailure p (LoadableViewState.initial : LoadableViewState ε V) st
        = (LoadableViewState.initial, st)
      ∧ LoadableViewState.onFailure p (LoadableViewState.loading : LoadableViewState ε V) st
        = (LoadableViewState.loading, st)
      ∧ LoadableViewState.onFailure p (LoadableViewState.success v : LoadableViewState ε V) st
        = (LoadableViewState.success v, st))
    ∧ (∀ (p : V → σ → σ) (a b : V) (e : ε) (st : σ),
      EditableViewState.onInitial p (EditableViewState.initial a : EditableViewState ε V) st
        = (EditableViewState.initial a, p a st)
      ∧ EditableViewState.onInitial p (EditableViewState.loading a b : EditableViewState ε V) st
        = (EditableViewState.loading a b, st)
      ∧ EditableViewState.onInitial p (EditableViewState.success a b : EditableViewState ε V) st
        = (EditableViewState.success a b, st)
      ∧ EditableViewState.onInitial p (EditableViewState.failure a b e : EditableViewState ε V) st
        = (EditableViewState.failure a b e, st))
    ∧ (∀ (p : V → V → σ → σ) (a b : V) (e : ε) (st : σ),
      EditableViewState.onLoading p (EditableViewState.loading a b : EditableViewState ε V) st
        = (EditableViewState.loading a b, p a b st)
      ∧ EditableViewState.onLoading p (EditableViewState.initial a : EditableViewState ε V) st
        = (EditableViewState.initial a, st)
      ∧ EditableViewState.onLoading p (EditableViewState.success a b : EditableViewState ε V) st
        = (EditableViewState.success a b, st)
      ∧ EditableViewState.onLoading p (EditableViewState.failure a b e : EditableViewState ε V) st
        = (EditableViewState.failure a b e, st))
    ∧ (∀ (p : V → V → σ → σ) (a b : V) (e : ε) (st : σ),
      EditableViewState.onSuccess p (EditableViewState.success a b : EditableViewState ε V) st
        = (EditableViewState.success a b, p a b st)
      ∧ EditableViewState.onSuccess p (EditableViewState.initial a : EditableViewState ε V) st
        = (EditableViewState.initial a, st)
      ∧ EditableViewState.onSuccess p (EditableViewState.loading a b : EditableViewState ε V) st
        = (EditableViewState.loading a b, st)
      ∧ EditableViewState.onSuccess p (EditableViewState.failure a b e : EditableViewState ε V) st
        = (EditableViewState.failure a b e, st))
    ∧ (∀ (p : V → V → ε → σ → σ) (a b : V) (e : ε) (st : σ),
      EditableViewState.onFailure p (EditableViewState.failure a b e : EditableViewState ε V) st
        = (EditableViewState.failure a b e, p a b e st)
      ∧ EditableViewState.onFailure p (EditableViewState.initial a : EditableViewState ε V) st
        = (EditableViewState.initial a, st)
      ∧ EditableViewState.onFailure p (EditableViewState.loading a b : EditableViewState ε V) st
        = (EditableViewState.loading a b, st)
      ∧ EditableViewState.onFailure p (EditableViewState.success a b : EditableViewState ε V) st
        = (EditableViewState.success a b, st)) := by
  refine ⟨?_, ?_, ?_, ?_, ?_, ?_, ?_, ?_⟩ <;> intros <;> exact ⟨rfl, rfl, rfl, rfl⟩

/-- Claim C6: getRelevant returns the baseline value on an initial state, the
pre-edit current value on a loading state, the succeeded value on a success
state and the pre-edit current value, not the failed one, on a failure state. -/
theorem claim_C6 {ε V : Type} :
    ∀ (a b : V) (e : ε),
      (EditableViewState.initial a : EditableViewState ε V).getRelevant = Except.ok a
      ∧ (EditableViewState.loading a b : EditableViewState ε V).getRelevant = Except.ok a
      ∧ (EditableViewState.success a b : EditableViewState ε V).getRelevant = Except.ok b
      ∧ (EditableViewState.failure a b e : EditableViewState ε V).getRelevant = Except.ok a :=
  fun _ _ _ => ⟨rfl, rfl, rfl, rfl⟩

/-- Claim C7: toString renders exactly the literal per-variant templates with
the natural string conversion of each payload; the editable failure rendering
shows only the current and failed values and omits the error entirely. -/
theorem claim_C7 {ε V : Type} :
    ∀ (strV : V → String) (strE : ε → String) (v a b : V) (e : ε),
      (LoadableViewState.initial : LoadableViewState ε V).toString strV strE = "Initial"
      ∧ (LoadableViewState.loading : LoadableViewState ε V).toString strV strE = "Loading"
      ∧ (LoadableViewState.success v : LoadableViewState ε V).toString strV strE
        = "Success: " ++ strV v
      ∧ (LoadableViewState.failure e : LoadableViewState ε V).toString strV strE
        = "Failure: " ++ strE e
      ∧ (EditableViewState.initial a : EditableViewState ε V).toString strV
        = Except.ok ("Initial: " ++ strV a)
      ∧ (EditableViewState.loading a b : EditableViewState ε V).toString strV
        = Except.ok ("Loading: " ++ strV a ++ " -> " ++ strV b)
      ∧ (EditableViewState.success a b : EditableViewState ε V).toString strV
        = Except.ok ("Success: " ++ strV a ++ " -> " ++ strV b)
      ∧ (EditableViewState.failure a b e : EditableViewState ε V).toString strV
        = Except.ok ("Failure: " ++ strV a ++ " -> " ++ strV b) :=
  fun _ _ _ _ _ _ => ⟨rfl, rfl, rfl, rfl, rfl, rfl, rfl, rfl⟩

/-- Claim C8: the operations of EditableViewState whose source ends in a
throw-unreachable line (getRelevant, both forms of fold, toString) always
produce a proper result on the four variants, so the throwing branch is dead;
every remaining operation of either type except LoadableViewState.getOrThrow
is a total function in this development and cannot raise. -/
theorem claim_C8 {ε V R σ : Type} :
    (∀ s : EditableViewState ε V, s.getRelevant.isOk = true)
    ∧ (∀ (s : EditableViewState ε V) (hS : V → V → σ → R × σ) (hF : V → V → ε → σ → R × σ)
        (hI : V → σ → R × σ) (hL : V → V → σ → R × σ) (st : σ),
        (EditableViewState.fold hS hF hI hL s st).isOk = true)
    ∧ (∀ (s : EditableViewState ε V) (h : EditableFoldHandlers ε V R σ) (st : σ),
        (EditableViewState.foldObj h s st).isOk = true)
    ∧ (∀ (s : EditableViewState ε V) (strV : V → String), (s.toString strV).isOk = true) := by
  refine ⟨?_, ?_, ?_, ?_⟩ <;> intro s <;> cases s <;> intros <;> rfl

/-- Claim C9: for both types, the named-handler-object form of fold agrees
with the positional form on every instance, every handler assignment and
every effect state, so both perform the same single handler invocation with
the same arguments and return the same result. -/
theorem claim_C9 {ε V R σ : Type} :
    (∀ (h : LoadableFoldHandlers ε V R σ) (s : LoadableViewState ε V) (st : σ),
      LoadableViewState.foldObj h s st
        = LoadableViewState.fold h.onSuccess h.onFailure h.onInitial h.onLoading s st)
    ∧ (∀ (h : EditableFoldHandlers ε V R σ) (s : EditableViewState ε V) (st : σ),
      EditableViewState.foldObj h s st
        = EditableViewState.fold h.onSuccess h.onFailure h.onInitial h.onLoading s st) :=
  ⟨fun _ _ _ => rfl, fun _ _ _ => rfl⟩

/-- Claim C10: because map dispatches on the null test of getOrNull rather
than on the success tag, a success holding the null value maps, for every
transform and effect state, to a failure state carrying the undefined error
payload; the transform is never invoked (the result does not depend on it)
and the resulting state satisfies isFailure with no retrievable error. -/
theorem claim_C10 {α W ε σ : Type} :
    ∀ (f : Option α → σ → W × σ) (st : σ),
      (LoadableViewState.success (none : Option α) : LoadableViewState ε (Option α)).map
          Option.isNone f st
        = (LoadableViewState.FailureType none, st)
      ∧ ((LoadableViewState.success (none : Option α) : LoadableViewState ε (Option α)).map
          Option.isNone f st).1.isFailure = true
      ∧ ((LoadableViewState.success (none : Option α) : LoadableViewState ε (Option α)).map
          Option.isNone f st).1.errorOrNull = none :=
  fun _ _ => ⟨rfl, rfl, rfl⟩
